import Mathlib

/-!
Verification development for the Vic wine-sommelier agent service
(src/agent/src/agent.py). The Python source is shallowly embedded:

* the process-wide `OrderedDict` session store becomes an explicit
  `Store` value threaded through the operations; Python object identity
  (contexts are returned by reference and mutated in place) is modelled
  with an explicit heap of `SessionContext` records addressed by `Nat`,
  so that two lookups returning the same record are provably returning
  the same address;
* Python `float` values (timestamps, prices) are modelled as `Rat`; the
  embedded operations only store and compare them, never compute with
  them, so the representation is exact for every value that occurs;
* fallible steps (JSON body parsing, the hosted-model call) are modelled
  with `Except String`, and the endpoint handlers are total functions
  that map the error case to an explicit error response, mirroring the
  outermost try/except of each handler;
* the hosted model runtime (pydantic-ai agent together with its tools)
  is an external collaborator and is modelled as an oracle
  `respond : String → Except String String` from the prompt text to the
  answer text; effects the tools make on the store happen inside that
  collaborator and are outside the embedded handler, matching the scope
  of the claims;
* Python truthiness on optional strings (`if session_id:` and
  `a or b`) is modelled by `truthy` and `pyOr`;
* the two `re.search` patterns of `extract_user_from_messages` are
  embedded as executable character-list scanners with the exact
  leftmost-match and backtracking semantics of the patterns
  (IGNORECASE literal, greedy whitespace run, one-or-more non-newline
  capture), restricted to ASCII whitespace.
-/

namespace VicAgent

/-! ## Python string primitives -/

/-- Python truthiness of an optional string: `None` and the empty string
are falsy, every other string is truthy. -/
def truthy : Option String → Bool
  | none => false
  | some s => !(s == "")

/-- Python `a or b` restricted to optional strings. -/
def pyOr (a b : Option String) : Option String :=
  if truthy a then a else b

/-- Python `str.lower()` restricted to ASCII, character by character. -/
def pyLower (s : String) : String :=
  String.mk (s.toList.map Char.toLower)

/-- Python `d.get(k)` on a string-valued dict, modelled as an
association list. -/
def dictGet (d : List (String × String)) (k : String) : Option String :=
  (d.find? (fun p => p.1 == k)).map (fun p => p.2)

/-- ASCII whitespace, as matched by the regex class backslash-s on the
strings this service sees. -/
def isPySpace (c : Char) : Bool :=
  c == ' ' || c == '\t' || c == '\n' || c == '\r' || c == '\x0b' || c == '\x0c'

/-- Python `str.strip()`: drop leading and trailing whitespace. -/
def pyStrip (s : List Char) : List Char :=
  ((s.dropWhile isPySpace).reverse.dropWhile isPySpace).reverse

/-- Python `str.split(sep)` for a single-character separator. -/
def splitOnChar (sep : Char) : List Char → List (List Char)
  | [] => [[]]
  | c :: rest =>
    match splitOnChar sep rest with
    | [] => [[]]
    | g :: gs => if c == sep then [] :: g :: gs else (c :: g) :: gs

/-- Case-insensitive literal prefix test; the literal is given in
lowercase, the scanned text is lowercased character by character. -/
def startsWithCI : List Char → List Char → Bool
  | [], _ => true
  | _ :: _, [] => false
  | l :: ls, c :: cs => (l == c.toLower) && startsWithCI ls cs

/-- Case-sensitive literal prefix test. -/
def startsWithList : List Char → List Char → Bool
  | [], _ => true
  | _ :: _, [] => false
  | p :: ps, c :: cs => (p == c) && startsWithList ps cs

/-- Matcher for the regex suffix: a greedy whitespace run followed by a
one-or-more capture of non-newline characters, with the backtracking the
regex engine performs when the greedy run consumes the whole remainder.
Returns the captured characters. -/
def matchSpaceCapture : List Char → Option (List Char)
  | [] => none
  | c :: rest =>
    if isPySpace c then
      match matchSpaceCapture rest with
      | some cap => some cap
      | none =>
        if c == '\n' then none
        else some (c :: rest.takeWhile (fun d => !(d == '\n')))
    else
      some (c :: rest.takeWhile (fun d => !(d == '\n')))

/-- Leftmost search for a lowercase literal (matched case-insensitively)
followed by whitespace and a non-newline capture; embeds
`re.search(lit + backslash-s star capture, content, IGNORECASE)`. -/
def labelSearch (lit : List Char) : List Char → Option (List Char)
  | [] => none
  | c :: rest =>
    if startsWithCI lit (c :: rest) then
      match matchSpaceCapture ((c :: rest).drop lit.length) with
      | some cap => some cap
      | none => labelSearch lit rest
    else labelSearch lit rest

/-- Lazy scan for the shortest non-newline run that ends in a colon
immediately followed by a newline; returns the text after that newline.
Embeds the regex fragment dot-star-lazy colon newline. -/
def findColonNewline : List Char → Option (List Char)
  | ':' :: '\n' :: rest => some rest
  | c :: rest => if c == '\n' then none else findColonNewline rest
  | [] => none

/-- Prefix of the text before the first occurrence of a literal
substring, or the whole text when the literal does not occur; embeds the
lazy capture bounded by a lookahead for the literal or end of input. -/
def takeUntilSub (stop : List Char) : List Char → List Char
  | [] => []
  | c :: cs => if startsWithList stop (c :: cs) then [] else c :: takeUntilSub stop cs

/-- After the heading literal has matched: finish the heading line at a
colon plus newline, then capture up to the next heading or end. -/
def zepMatchAt (stop : List Char) (cs : List Char) : Option (List Char) :=
  (findColonNewline cs).map (fun rest => takeUntilSub stop rest)

/-- Leftmost search for the memory-context heading pattern. -/
def zepSearch (lit stop : List Char) : List Char → Option (List Char)
  | [] => none
  | c :: rest =>
    if startsWithList lit (c :: rest) then
      match zepMatchAt stop ((c :: rest).drop lit.length) with
      | some cap => some cap
      | none => zepSearch lit stop rest
    else zepSearch lit stop rest

/-! ## Session store (agent.py lines 58-102)

`_session_contexts : OrderedDict` with `MAX_SESSIONS = 100`.
The `order` list is the OrderedDict key order, oldest first; the `heap`
models Python object identity: each `SessionContext` lives at a fixed
address and the store maps keys to addresses. -/

def MAX_SESSIONS : Nat := 100

structure SessionContext where
  turns_since_name_used : Nat := 0
  name_used_in_greeting : Bool := false
  greeted_this_session : Bool := false
  last_topic : String := ""
  last_interaction_time : Rat
  user_name : Option String := none
  context_fetched : Bool := false
  current_wine : Option String := none
  preferred_region : Option String := none
  budget_min : Option Rat := none
  budget_max : Option Rat := none
  occasion : Option String := none
  food_pairing : Option String := none
  deriving DecidableEq

/-- A freshly default-initialised context; `now` is the value of
`time.time()` at creation. -/
def SessionContext.init (now : Rat) : SessionContext :=
  { last_interaction_time := now }

structure Store where
  heap : List SessionContext
  order : List (String × Nat)
  deriving DecidableEq

def Store.empty : Store := { heap := [], order := [] }

/-- Membership test of the OrderedDict, returning the entry. -/
def find_entry (order : List (String × Nat)) (sid : String) : Option (String × Nat) :=
  order.find? (fun p => p.1 == sid)

/-- `OrderedDict.move_to_end(sid)`: the entry moves to the freshest end. -/
def move_to_end (order : List (String × Nat)) (sid : String) : List (String × Nat) :=
  match find_entry order sid with
  | none => order
  | some p => (order.filter (fun q => !(q.1 == sid))) ++ [p]

/-- The eviction loop: `while len(store) >= cap: store.popitem(last=False)`,
dropping the oldest entry each iteration. -/
def evict_while (cap : Nat) : List (String × Nat) → List (String × Nat)
  | [] => []
  | e :: rest => if cap ≤ (e :: rest).length then evict_while cap rest else e :: rest

/-- `get_session_context`: return the address of the existing context,
touching its recency, or evict down below capacity and insert a fresh
context at a fresh address. -/
def get_session_context (cap : Nat) (now : Rat) (store : Store) (sid : String) :
    Nat × Store :=
  match find_entry store.order sid with
  | some p => (p.2, { store with order := move_to_end store.order sid })
  | none =>
    let order1 := evict_while cap store.order
    let addr := store.heap.length
    (addr, { heap := store.heap ++ [SessionContext.init now], order := order1 ++ [(sid, addr)] })

/-- Dereference an address (Python attribute read on the object). -/
def Store.read (s : Store) (addr : Nat) : SessionContext :=
  s.heap.getD addr (SessionContext.init 0)

/-- In-place mutation of the object at an address (Python attribute
assignment through a reference). -/
def Store.write (s : Store) (addr : Nat) (ctx : SessionContext) : Store :=
  { s with heap := s.heap.set addr ctx }

/-- The context currently stored for a key, if the key is live. -/
def Store.readKey (s : Store) (sid : String) : Option SessionContext :=
  (find_entry s.order sid).map (fun p => s.read p.2)

/-- The list of store states produced by a sequence of
`get_session_context` calls, one state per call. -/
def run_trace (cap : Nat) (now : Rat) : List String → Store → List Store
  | [], _ => []
  | k :: ks, s =>
    let s1 := (get_session_context cap now s k).2
    s1 :: run_trace cap now ks s1

/-! ## Identity extraction helpers (agent.py lines 561-645) -/

structure Request where
  query_params : String → Option String
  headers : String → Option String

structure ChatMessage where
  role : String
  content : String
  deriving DecidableEq

structure ChatBody where
  messages : List ChatMessage
  stream : Option Bool
  fields : List (String × String)
  session_settings : List (String × String)
  metadata : List (String × String)

/-- `extract_session_id`: prioritized search for the session key across
query parameters, body fields, the nested session_settings and metadata
objects, and two headers; every hit is guarded by Python truthiness. -/
def extract_session_id (req : Request) (body : ChatBody) : Option String :=
  let q := pyOr (req.query_params "custom_session_id") (req.query_params "customSessionId")
  if truthy q then q
  else
    let b := pyOr (dictGet body.fields "custom_session_id") (dictGet body.fields "customSessionId")
    if truthy b then b
    else
      let ss := body.session_settings
      let s1 := if !ss.isEmpty then
          pyOr (dictGet ss "customSessionId") (dictGet ss "custom_session_id")
        else none
      if truthy s1 then s1
      else
        let md := body.metadata
        let m1 := if !md.isEmpty then
            pyOr (dictGet md "customSessionId") (dictGet md "custom_session_id")
          else none
        if truthy m1 then m1
        else
          let h1 := req.headers "x-custom-session-id"
          if truthy h1 then h1
          else
            let h2 := req.headers "x-hume-custom-session-id"
            if truthy h2 then h2 else none

/-- `extract_user_from_session`: split the session key on every pipe
character; the first part is the name unless empty or (lowercased) the
placeholder word, the second part is the id when it exists. -/
def extract_user_from_session (session_id : Option String) :
    Option String × Option String :=
  match session_id with
  | none => (none, none)
  | some s =>
    if s == "" || !(s.toList.contains '|') then (none, none)
    else
      match (splitOnChar '|' s.toList).map (fun l => String.mk l) with
      | [] => (none, none)
      | p0 :: rest =>
        let user_name := if p0 == "" || pyLower p0 == "user" then none else some p0
        let user_id := rest.head?
        (user_name, user_id)

def nameLit : List Char := "name:".toList

def uidLit : List Char := "user_id:".toList

def zepLit : List Char := "## WHAT I REMEMBER".toList

def zepStop : List Char := "\n##".toList

/-- The filter applied to a captured name: stripped, and discarded when
the lowercased value is a known placeholder or empty. -/
def filterName (cap : List Char) : Option String :=
  let name := String.mk (pyStrip cap)
  if [ "guest", "anonymous", ""].contains (pyLower name) then none else some name

/-- The filter applied to a captured user id. -/
def filterUid (cap : List Char) : Option String :=
  let uid := String.mk (pyStrip cap)
  if [ "anonymous", ""].contains (pyLower uid) then none else some uid

/-- `extract_user_from_messages`: inspect only the first message whose
role is system; scan its text for the name and user_id labels and the
memory-context heading. -/
def extract_user_from_messages (messages : List ChatMessage) :
    Option String × Option String × Option String :=
  match messages.find? (fun m => m.role == "system") with
  | none => (none, none, none)
  | some msg =>
    let content := msg.content.toList
    let user_name := match labelSearch nameLit content with
      | some cap => filterName cap
      | none => none
    let user_id := match labelSearch uidLit content with
      | some cap => filterUid cap
      | none => none
    let zep_context := (zepSearch zepLit zepStop content).map (fun cap => String.mk (pyStrip cap))
    (user_name, user_id, zep_context)

/-! ## Chat endpoint handlers (agent.py lines 652-812)

Nondeterministic inputs of a turn (wall clock readings and the uuid4
draws used for chunk ids) are bundled into `Env`. The hosted model
runtime is the oracle `respond`; the request body parse
(`await request.json()`) arrives as an `Except` value. -/

structure Env where
  now : Rat
  created1 : Int
  created2 : Int
  uuid1 : String
  uuid2 : String

structure Delta where
  role : Option String
  content : Option String
  deriving DecidableEq

structure ChunkChoice where
  index : Nat
  delta : Delta
  finish_reason : Option String
  deriving DecidableEq

structure Chunk where
  id : String
  object : String
  created : Int
  model : String
  choices : List ChunkChoice
  deriving DecidableEq

inductive SSEEvent where
  | data (c : Chunk)
  | done
  deriving DecidableEq

structure CompletionMessage where
  role : String
  content : String
  deriving DecidableEq

structure CompletionChoice where
  index : Nat
  message : CompletionMessage
  finish_reason : String
  deriving DecidableEq

structure Usage where
  prompt_tokens : Nat
  completion_tokens : Nat
  total_tokens : Nat
  deriving DecidableEq

structure Completion where
  id : String
  object : String
  created : Int
  model : String
  choices : List CompletionChoice
  usage : Usage
  deriving DecidableEq

inductive ChatResult where
  | streamed (events : List SSEEvent)
  | completion (c : Completion)
  | errorResp (msg : String)
  deriving DecidableEq

/-- The latest user-authored message: last entry with role user scanning
from the end; the canned greeting when none exists or it is empty. -/
def last_user_message (messages : List ChatMessage) : String :=
  let m := match messages.reverse.find? (fun m => m.role == "user") with
    | some msg => msg.content
    | none => ""
  if m == "" then "Hello!" else m

/-- Composed user name of a chat turn: the system-message value when
truthy, otherwise the session-key value. -/
def chat_user_name (session_id : Option String) (messages : List ChatMessage) :
    Option String :=
  let su := extract_user_from_session session_id
  let sm := extract_user_from_messages messages
  if truthy sm.1 then sm.1 else su.1

/-- Composed user id of a chat turn, same precedence. -/
def chat_user_id (session_id : Option String) (messages : List ChatMessage) :
    Option String :=
  let su := extract_user_from_session session_id
  let sm := extract_user_from_messages messages
  if truthy sm.2.1 then sm.2.1 else su.2

/-- The prompt handed to the hosted model: the latest user message, with
a bracketed name annotation prepended when a name is known. -/
def chat_prompt (session_id : Option String) (messages : List ChatMessage) : String :=
  let user_message := last_user_message messages
  match chat_user_name session_id messages with
  | some n => if n == "" then user_message
      else "[User\x27s name is " ++ n ++ "] " ++ user_message
  | none => user_message

/-- The identity-capture step of the chat handler: when a session key is
present, look up or create its context and set `user_name` only if the
composed name is truthy and the stored name is not yet set. -/
def capture_step (session_id : Option String) (user_name : Option String)
    (now : Rat) (store : Store) : Store :=
  match session_id with
  | none => store
  | some sid =>
    if sid == "" then store
    else
      let r := get_session_context MAX_SESSIONS now store sid
      let ctx := r.2.read r.1
      if truthy user_name && !(truthy ctx.user_name) then
        r.2.write r.1 { ctx with user_name := user_name }
      else r.2

/-- The two SSE chunk events followed by the DONE sentinel, as yielded
by `stream_response`. -/
def stream_events (env : Env) (response_text : String) : List SSEEvent :=
  [ SSEEvent.data
      { id := "chatcmpl-" ++ env.uuid1
        object := "chat.completion.chunk"
        created := env.created1
        model := "dionysus-1.0"
        choices := [ { index := 0
                       delta := { role := some "assistant", content := some response_text }
                       finish_reason := none } ] },
    SSEEvent.data
      { id := "chatcmpl-" ++ env.uuid2
        object := "chat.completion.chunk"
        created := env.created2
        model := "dionysus-1.0"
        choices := [ { index := 0
                       delta := { role := none, content := none }
                       finish_reason := some "stop" } ] },
    SSEEvent.done ]

/-- The non-streaming completion object. -/
def mkCompletion (env : Env) (response_text : String) : Completion :=
  { id := "chatcmpl-" ++ env.uuid1
    object := "chat.completion"
    created := env.created1
    model := "dionysus-1.0"
    choices := [ { index := 0
                   message := { role := "assistant", content := response_text }
                   finish_reason := "stop" } ]
    usage := { prompt_tokens := 0, completion_tokens := 0, total_tokens := 0 } }

/-- POST /chat/completions. The whole body runs inside try/except; any
failure of the parse or of the hosted-model call becomes an error
response. The store is returned alongside the result (mutations made
before a failure persist, as they do on the Python module global). -/
def chat_completions (respond : String → Except String String) (env : Env)
    (req : Request) (parsed : Except String ChatBody) (store : Store) :
    ChatResult × Store :=
  match parsed with
  | Except.error e => (ChatResult.errorResp e, store)
  | Except.ok body =>
    let stream := body.stream.getD true
    let session_id := extract_session_id req body
    let user_name := chat_user_name session_id body.messages
    let store1 := capture_step session_id user_name env.now store
    let prompt := chat_prompt session_id body.messages
    match respond prompt with
    | Except.error e => (ChatResult.errorResp e, store1)
    | Except.ok response_text =>
      if stream then (ChatResult.streamed (stream_events env response_text), store1)
      else (ChatResult.completion (mkCompletion env response_text), store1)

/-! ### CopilotKit endpoint -/

structure CKItem where
  type : String
  text : String
  deriving DecidableEq

inductive CKContent where
  | str (s : String)
  | items (l : List CKItem)
  deriving DecidableEq

structure CKMessage where
  role : String
  content : CKContent
  deriving DecidableEq

structure CKReply where
  role : String
  content : String
  deriving DecidableEq

inductive CKResult where
  | ok (messages : List CKReply)
  | errorResp (msg : String)
  deriving DecidableEq

/-- Latest user message of the CopilotKit body: last entry with role
user; list-shaped content contributes the text of its first text item;
the canned greeting when nothing was found or it is empty. -/
def ck_last_user_message (messages : List CKMessage) : String :=
  let m := match messages.reverse.find? (fun m => m.role == "user") with
    | some msg =>
      match msg.content with
      | CKContent.str s => s
      | CKContent.items l =>
        match l.find? (fun it => it.type == "text") with
        | some it => it.text
        | none => ""
    | none => ""
  if m == "" then "Hello!" else m

/-- POST /copilotkit. No identity resolution and no session-store access
happen here: the agent runs under a fresh random session id with the raw
user message. The store parameter is threaded to make that absence
provable. -/
def copilotkit_endpoint (respond : String → Except String String)
    (parsed : Except String (List CKMessage)) (store : Store) :
    CKResult × Store :=
  match parsed with
  | Except.error e => (CKResult.errorResp e, store)
  | Except.ok messages =>
    let user_message := ck_last_user_message messages
    match respond user_message with
    | Except.error e => (CKResult.errorResp e, store)
    | Except.ok response_text =>
      (CKResult.ok [ { role := "assistant", content := response_text } ], store)

/-! ## Spec-side definitions

`sessionIdSearchSpec` renders the words of the specification of
`resolveFromRequestEnvelope`: the first non-empty value in the given
carrier order. It is compared with `extract_session_id` in claim C4. -/

def firstNonEmpty : List (Option String) → Option String
  | [] => none
  | a :: rest => if truthy a then a else firstNonEmpty rest

/-- The ordered carrier list the specification describes for
`resolveFromRequestEnvelope`. -/
def sessionIdCarriers (req : Request) (body : ChatBody) : List (Option String) :=
  [ req.query_params "custom_session_id",
    req.query_params "customSessionId",
    dictGet body.fields "custom_session_id",
    dictGet body.fields "customSessionId",
    dictGet body.session_settings "customSessionId",
    dictGet body.session_settings "custom_session_id",
    dictGet body.metadata "customSessionId",
    dictGet body.metadata "custom_session_id",
    req.headers "x-custom-session-id",
    req.headers "x-hume-custom-session-id" ]

/-- The per-event concatenation observer for the streamed envelope: the
delta content carried by a data event, empty for the DONE sentinel. -/
def eventContent : SSEEvent → String
  | SSEEvent.data c => String.join (c.choices.map (fun ch => ch.delta.content.getD ""))
  | SSEEvent.done => ""

/-! ## Helper lemmas -/

lemma str_append_empty (s : String) : s ++ "" = s := by
  cases s with
  | mk data => apply String.ext; simp [String.data_append]

lemma str_empty_append (s : String) : "" ++ s = s := by
  cases s with
  | mk data => apply String.ext; simp [String.data_append]

lemma ite_pyOr (a b X : Option String) :
    (if truthy (pyOr a b) then pyOr a b else X) =
      (if truthy a then a else if truthy b then b else X) := by
  by_cases h : truthy a = true
  · simp [pyOr, h]
  · simp only [pyOr, h, if_false, Bool.not_eq_true] at *
    simp [h]

lemma ite_guard (ss : List (String × String)) (k1 k2 : String) (X : Option String) :
    (if truthy (if !ss.isEmpty then pyOr (dictGet ss k1) (dictGet ss k2) else none)
       then (if !ss.isEmpty then pyOr (dictGet ss k1) (dictGet ss k2) else none) else X) =
      (if truthy (dictGet ss k1) then dictGet ss k1
       else if truthy (dictGet ss k2) then dictGet ss k2 else X) := by
  cases ss with
  | nil => simp [dictGet, truthy]
  | cons e rest =>
    simp only [List.isEmpty_cons, Bool.not_false, if_true]
    exact ite_pyOr _ _ _

lemma splitOnChar_first (sep : Char) (l : List Char) :
    ∃ gs, splitOnChar sep l = l.takeWhile (fun c => !(c == sep)) :: gs ∧
      (l.contains sep = true →
        gs.head? =
          some (((l.dropWhile (fun c => !(c == sep))).tail).takeWhile (fun c => !(c == sep)))) := by
  induction l with
  | nil =>
    refine ⟨[], rfl, ?_⟩
    intro h
    simp at h
  | cons c rest ih =>
    obtain ⟨gs, hsplit, hsecond⟩ := ih
    by_cases hc : c = sep
    · subst hc
      refine ⟨splitOnChar c rest, ?_, ?_⟩
      · simp [splitOnChar, hsplit]
      · intro _
        simp [hsplit]
    · have hc1 : (c == sep) = false := beq_eq_false_iff_ne.mpr hc
      refine ⟨gs, ?_, ?_⟩
      · simp [splitOnChar, hsplit, hc1]
      · intro hcon
        have hrest : rest.contains sep = true := by
          simp only [List.contains_cons] at hcon
          rcases Bool.or_eq_true_iff.mp hcon with h1 | h1
          · exact absurd (beq_iff_eq.mp h1).symm hc
          · exact h1
        have h2 := hsecond hrest
        simpa [List.dropWhile_cons, hc1] using h2

/-! ## Claim C3 (corrected) -/

/-- Claim C3 counterexample. The claim states that the id component is
the entire text after the first pipe (so for the key Alice pipe 4 pipe 2
it would be 4 pipe 2) and that the id is absent when nothing follows the
first pipe; the code splits on every pipe and takes the second part, so
the id is 4 in the first case and the empty string, present, in the
second. -/
theorem claim_C3_counterexample :
    extract_user_from_session (some "Alice|4|2") ≠ ((some "Alice", some "4|2") : Option String × Option String)
  ∧ extract_user_from_session (some "Alice|") ≠ ((some "Alice", none) : Option String × Option String) := by
  exact ⟨by decide, by decide⟩

/-- Claim C3 amended: when the input is absent or has no pipe both
outputs are absent; otherwise the name is the text before the first
pipe (absent when empty or case-insensitively the placeholder word) and
the id is the text strictly between the first pipe and the second pipe
or end of string, always present in that case, possibly empty. The three
examples of the claim hold unchanged. -/
theorem claim_C3_amended :
    extract_user_from_session none = (none, none)
  ∧ (∀ s : String, s.toList.contains '|' = false →
      extract_user_from_session (some s) = (none, none))
  ∧ (∀ s : String, s.toList.contains '|' = true →
      extract_user_from_session (some s) =
        (let name := String.mk (s.toList.takeWhile (fun c => !(c == '|')))
         let uid := String.mk
           (((s.toList.dropWhile (fun c => !(c == '|'))).tail).takeWhile (fun c => !(c == '|')))
         ((if name == "" || pyLower name == "user" then none else some name), some uid)))
  ∧ extract_user_from_session (some "user|42") = (none, some "42")
  ∧ extract_user_from_session (some "Alice|42") = (some "Alice", some "42")
  ∧ extract_user_from_session (some "NoSeparator") = (none, none) := by
  refine ⟨rfl, ?_, ?_, by decide, by decide, by decide⟩
  · intro s h
    simp only [extract_user_from_session, h, Bool.not_false, Bool.or_true, if_true]
  · intro s h
    have hne : s ≠ "" := by
      intro he
      subst he
      simp at h
    have hne1 : (s == "") = false := beq_eq_false_iff_ne.mpr hne
    obtain ⟨gs, hsplit, hsecond⟩ := splitOnChar_first '|' s.toList
    have hhead := hsecond h
    simp only [extract_user_from_session, hne1, h, Bool.false_or, Bool.not_true,
      Bool.false_eq_true, if_false, hsplit, List.map_cons]
    cases gs with
    | nil => simp at hhead
    | cons g rest =>
      simp only [List.head?] at hhead
      simp [hhead.symm]
      cases hhead
      rfl

/-- Claim C3 witness: the amended characterization evaluated at the
concrete key Alice pipe 4 pipe 2. -/
theorem claim_C3_amended_witness :
    extract_user_from_session (some "Alice|4|2") =
      (let name := String.mk (("Alice|4|2").toList.takeWhile (fun c => !(c == '|')))
       let uid := String.mk
         (((("Alice|4|2").toList.dropWhile (fun c => !(c == '|'))).tail).takeWhile (fun c => !(c == '|')))
       ((if name == "" || pyLower name == "user" then none else some name), some uid)) :=
  claim_C3_amended.2.2.1 "Alice|4|2" (by decide)

/-! ## Claim C4 (confirmed) -/

lemma extract_session_id_eq (req : Request) (body : ChatBody) :
    extract_session_id req body = firstNonEmpty (sessionIdCarriers req body) := by
  simp only [extract_session_id, sessionIdCarriers, firstNonEmpty]
  rw [ite_pyOr, ite_pyOr, ite_guard, ite_guard]

/-- Claim C4: extract_session_id returns the first non-empty value among
the carriers in the specified order (query parameters, body top-level
fields, session_settings, metadata, then the two headers), absent when
every carrier is empty; in particular a key present in both the query
string and the body resolves to the query-string value. -/
theorem claim_C4 :
    (∀ (req : Request) (body : ChatBody),
      extract_session_id req body = firstNonEmpty (sessionIdCarriers req body))
  ∧ (∀ (req : Request) (body : ChatBody),
      truthy (req.query_params "custom_session_id") = true →
      extract_session_id req body = req.query_params "custom_session_id") := by
  refine ⟨extract_session_id_eq, ?_⟩
  intro req body h
  rw [extract_session_id_eq]
  simp [sessionIdCarriers, firstNonEmpty, h]

/-- Claim C4 witness: a request carrying the key in both the query
string and the body resolves to the query-string value. -/
theorem claim_C4_witness :
    extract_session_id
      { query_params := fun k => if k == "custom_session_id" then some "fromquery" else none,
        headers := fun _ => none }
      { messages := [], stream := none,
        fields := [ ("custom_session_id", "frombody") ],
        session_settings := [], metadata := [] } = some "fromquery" :=
  claim_C4.2
    { query_params := fun k => if k == "custom_session_id" then some "fromquery" else none,
      headers := fun _ => none }
    { messages := [], stream := none,
      fields := [ ("custom_session_id", "frombody") ],
      session_settings := [], metadata := [] }
    (by decide)

/-! ## Claim C1 (confirmed) -/

lemma evict_while_length_lt (cap : Nat) (hcap : 1 ≤ cap) :
    ∀ l : List (String × Nat), (evict_while cap l).length < cap := by
  intro l
  induction l with
  | nil => simpa [evict_while] using hcap
  | cons e rest ih =>
    rw [show evict_while cap (e :: rest) =
        if cap ≤ (e :: rest).length then evict_while cap rest else e :: rest from rfl]
    by_cases h : cap ≤ (e :: rest).length
    · rw [if_pos h]; exact ih
    · rw [if_neg h]; omega

lemma filter_length_lt_of_find (l : List (String × Nat)) (sid : String) (x : String × Nat)
    (h : l.find? (fun q => q.1 == sid) = some x) :
    (l.filter (fun q => !(q.1 == sid))).length < l.length := by
  induction l with
  | nil => simp at h
  | cons a rest ih =>
    by_cases ha : (a.1 == sid) = true
    · have hle := List.length_filter_le (fun q => !(q.1 == sid)) rest
      simp only [List.filter_cons, ha, Bool.not_true]
      rw [if_neg (by simp)]
      simp only [List.length_cons]
      omega
    · have ha2 : (a.1 == sid) = false := by
        cases hb : (a.1 == sid) with
        | false => rfl
        | true => exact absurd hb ha
      rw [List.find?_cons_of_neg _ (by simp [ha2])] at h
      have := ih h
      simp only [List.filter_cons, ha2, Bool.not_false]
      rw [if_pos (by simp)]
      simp only [List.length_cons]
      omega

lemma get_session_context_length_le (cap : Nat) (now : Rat) (store : Store) (sid : String)
    (hcap : 1 ≤ cap) (h : store.order.length ≤ cap) :
    ((get_session_context cap now store sid).2).order.length ≤ cap := by
  unfold get_session_context
  cases hfind : find_entry store.order sid with
  | some p =>
    have hfind2 : store.order.find? (fun q => q.1 == sid) = some p := hfind
    have hlt := filter_length_lt_of_find store.order sid p hfind2
    simp only [move_to_end, hfind, List.length_append, List.length_cons, List.length_nil]
    omega
  | none =>
    have hlt := evict_while_length_lt cap hcap store.order
    simp only [List.length_append, List.length_cons, List.length_nil]
    omega

lemma run_trace_length_le (cap : Nat) (now : Rat) (hcap : 1 ≤ cap) :
    ∀ (keys : List String) (s : Store), s.order.length ≤ cap →
      ∀ st ∈ run_trace cap now keys s, st.order.length ≤ cap := by
  intro keys
  induction keys with
  | nil => intro s _ st hst; simp [run_trace] at hst
  | cons k ks ih =>
    intro s hs st hst
    have hnext := get_session_context_length_le cap now s k hcap hs
    simp only [run_trace, List.mem_cons] at hst
    rcases hst with h1 | h1
    · rw [h1]; exact hnext
    · exact ih _ hnext st h1

lemma evict_while_eq_tail (cap : Nat) (l : List (String × Nat))
    (hcap : 1 ≤ cap) (h : l.length = cap) : evict_while cap l = l.tail := by
  cases l with
  | nil => rw [← h] at hcap; simp at hcap
  | cons e rest =>
    have h1 : cap ≤ (e :: rest).length := le_of_eq h.symm
    rw [show evict_while cap (e :: rest) =
        if cap ≤ (e :: rest).length then evict_while cap rest else e :: rest from rfl,
      if_pos h1, List.tail_cons]
    cases rest with
    | nil => rfl
    | cons e2 r2 =>
      have h2 : ¬ cap ≤ (e2 :: r2).length := by
        simp only [List.length_cons] at h ⊢
        omega
      rw [show evict_while cap (e2 :: r2) =
          if cap ≤ (e2 :: r2).length then evict_while cap r2 else e2 :: r2 from rfl,
        if_neg h2]

/-- Claim C1: along every sequence of get_session_context calls starting
from the empty store, each intermediate store holds at most MAX_SESSIONS
distinct keys; and a call with an absent key that finds the store
exactly at capacity removes the entry at the stale end of the order (the
least-recently-touched one) and appends the new entry at the fresh
end. -/
theorem claim_C1 :
    (∀ (now : Rat) (keys : List String),
      ∀ st ∈ run_trace MAX_SESSIONS now keys Store.empty,
        ((st.order.map Prod.fst).dedup).length ≤ MAX_SESSIONS)
  ∧ (∀ (store : Store) (sid : String) (now : Rat),
      find_entry store.order sid = none → store.order.length = MAX_SESSIONS →
      ((get_session_context MAX_SESSIONS now store sid).2).order =
        store.order.tail ++ [ (sid, store.heap.length) ]) := by
  constructor
  · intro now keys st hst
    have h1 : st.order.length ≤ MAX_SESSIONS := by
      refine run_trace_length_le MAX_SESSIONS now (by decide) keys Store.empty ?_ st hst
      simp [Store.empty]
    calc ((st.order.map Prod.fst).dedup).length
        ≤ (st.order.map Prod.fst).length := (List.dedup_sublist _).length_le
      _ = st.order.length := List.length_map _ _
      _ ≤ MAX_SESSIONS := h1
  · intro store sid now hfind hlen
    simp only [get_session_context, hfind]
    rw [evict_while_eq_tail MAX_SESSIONS store.order (by decide) hlen]

/-- Claim C1 witness: a store of one hundred identical stale entries, at
capacity, evicts its oldest entry when a fresh key arrives; and the
states of a two-call trace stay within capacity. -/
theorem claim_C1_witness :
    ((get_session_context MAX_SESSIONS 0
        { heap := List.replicate 100 (SessionContext.init 0),
          order := List.replicate 100 ("stale", 0) } "fresh").2).order =
      (List.replicate 100 (("stale" : String), 0)).tail ++
        [ ("fresh", (List.replicate 100 (SessionContext.init (0 : Rat))).length) ]
  ∧ ∀ st ∈ run_trace MAX_SESSIONS 0 [ "a", "b" ] Store.empty,
      ((st.order.map Prod.fst).dedup).length ≤ MAX_SESSIONS := by
  constructor
  · exact claim_C1.2 _ "fresh" 0 (by decide) (by decide)
  · intro st hst
    exact claim_C1.1 0 [ "a", "b" ] st hst

/-! ## Claim C2 (confirmed)

The claim addresses the get-or-create algorithm at capacity two; the
embedding is the same `get_session_context` with the capacity parameter
instantiated at 2 instead of `MAX_SESSIONS`. The steps of the scenario
are named by equational hypotheses; mutation through the returned
reference is `Store.write` at the returned address. -/

/-- Claim C2: insert A, mutate the returned record through its
reference, insert B, access A again, insert C, all at capacity two.
Accessing A returns the same address as before; the record read there
carries the mutation; inserting C evicts B while A (still mutated) and C
stay retrievable. -/
theorem claim_C2 (A B C : String) (hAB : A ≠ B) (hAC : A ≠ C) (hBC : B ≠ C)
    (n1 n2 n3 n4 : Rat) (f : SessionContext → SessionContext)
    (r1 : Nat × Store) (h1 : r1 = get_session_context 2 n1 Store.empty A)
    (s1 : Store) (h2 : s1 = r1.2.write r1.1 (f (r1.2.read r1.1)))
    (r2 : Nat × Store) (h3 : r2 = get_session_context 2 n2 s1 B)
    (r3 : Nat × Store) (h4 : r3 = get_session_context 2 n3 r2.2 A)
    (r4 : Nat × Store) (h5 : r4 = get_session_context 2 n4 r3.2 C) :
    r3.1 = r1.1
  ∧ r3.2.read r3.1 = f (SessionContext.init n1)
  ∧ r4.2.readKey B = none
  ∧ r4.2.readKey A = some (f (SessionContext.init n1))
  ∧ r4.2.readKey C = some (SessionContext.init n4) := by
  have hAB1 : (A == B) = false := beq_eq_false_iff_ne.mpr hAB
  have hBA1 : (B == A) = false := beq_eq_false_iff_ne.mpr (Ne.symm hAB)
  have hAC1 : (A == C) = false := beq_eq_false_iff_ne.mpr hAC
  have hCA1 : (C == A) = false := beq_eq_false_iff_ne.mpr (Ne.symm hAC)
  have hBC1 : (B == C) = false := beq_eq_false_iff_ne.mpr hBC
  have hCB1 : (C == B) = false := beq_eq_false_iff_ne.mpr (Ne.symm hBC)
  subst h1 h2 h3 h4 h5
  have hs1 : ((get_session_context 2 n1 Store.empty A).2.write
      (get_session_context 2 n1 Store.empty A).1
      (f ((get_session_context 2 n1 Store.empty A).2.read
        (get_session_context 2 n1 Store.empty A).1))) =
      ({ heap := [f (SessionContext.init n1)], order := [(A, 0)] } : Store) := rfl
  have fAB : find_entry [((A : String), (0 : Nat))] B = none := by
    unfold find_entry
    rw [List.find?_cons_of_neg _ (by simp [hAB1])]
    rfl
  have e2 : get_session_context 2 n2
      ({ heap := [f (SessionContext.init n1)], order := [(A, 0)] } : Store) B =
      (1, { heap := [f (SessionContext.init n1), SessionContext.init n2],
            order := [(A, 0), (B, 1)] }) := by
    unfold get_session_context
    dsimp only
    rw [fAB]
    rfl
  have fA2 : find_entry [((A : String), (0 : Nat)), (B, 1)] A = some (A, 0) := by
    unfold find_entry
    rw [List.find?_cons_of_pos _ (by simp)]
  have e3 : get_session_context 2 n3
      ({ heap := [f (SessionContext.init n1), SessionContext.init n2],
         order := [(A, 0), (B, 1)] } : Store) A =
      (0, { heap := [f (SessionContext.init n1), SessionContext.init n2],
            order := [(B, 1), (A, 0)] }) := by
    unfold get_session_context move_to_end
    dsimp only
    rw [fA2]
    simp [hBA1]
  have fC3 : find_entry [((B : String), (1 : Nat)), (A, 0)] C = none := by
    unfold find_entry
    rw [List.find?_cons_of_neg _ (by simp [hBC1]), List.find?_cons_of_neg _ (by simp [hAC1])]
    rfl
  have e4 : get_session_context 2 n4
      ({ heap := [f (SessionContext.init n1), SessionContext.init n2],
         order := [(B, 1), (A, 0)] } : Store) C =
      (2, { heap := [f (SessionContext.init n1), SessionContext.init n2,
                     SessionContext.init n4],
            order := [(A, 0), (C, 2)] }) := by
    unfold get_session_context
    dsimp only
    rw [fC3]
    rfl
  have fB4 : find_entry [((A : String), (0 : Nat)), (C, 2)] B = none := by
    unfold find_entry
    rw [List.find?_cons_of_neg _ (by simp [hAB1]), List.find?_cons_of_neg _ (by simp [hCB1])]
    rfl
  have fA4 : find_entry [((A : String), (0 : Nat)), (C, 2)] A = some (A, 0) := by
    unfold find_entry
    rw [List.find?_cons_of_pos _ (by simp)]
  have fC4 : find_entry [((A : String), (0 : Nat)), (C, 2)] C = some (C, 2) := by
    unfold find_entry
    rw [List.find?_cons_of_neg _ (by simp [hAC1]), List.find?_cons_of_pos _ (by simp)]
  refine ⟨?_, ?_, ?_, ?_, ?_⟩
  · rw [hs1]; rw [e2]; dsimp only; rw [e3]
    rfl
  · rw [hs1]; rw [e2]; dsimp only; rw [e3]
    rfl
  · rw [hs1]; rw [e2]; dsimp only; rw [e3]; dsimp only; rw [e4]
    dsimp only
    unfold Store.readKey
    rw [fB4]
    rfl
  · rw [hs1]; rw [e2]; dsimp only; rw [e3]; dsimp only; rw [e4]
    dsimp only
    unfold Store.readKey
    rw [fA4]
    rfl
  · rw [hs1]; rw [e2]; dsimp only; rw [e3]; dsimp only; rw [e4]
    dsimp only
    unfold Store.readKey
    rw [fC4]
    rfl

/-- Claim C2 witness: the scenario run at the concrete keys A, B, C with
a concrete mutation that sets the user name; B is evicted and the
mutated record for A survives. -/
theorem claim_C2_witness :
    ((get_session_context 2 3
        (get_session_context 2 2
          (get_session_context 2 1
            ((get_session_context 2 0 Store.empty "A").2.write
              (get_session_context 2 0 Store.empty "A").1
              ({ ((get_session_context 2 0 Store.empty "A").2.read
                  (get_session_context 2 0 Store.empty "A").1) with
                  user_name := some "Alice" })) "B").2 "A").2 "C").2).readKey "B" = none
  ∧ ((get_session_context 2 3
        (get_session_context 2 2
          (get_session_context 2 1
            ((get_session_context 2 0 Store.empty "A").2.write
              (get_session_context 2 0 Store.empty "A").1
              ({ ((get_session_context 2 0 Store.empty "A").2.read
                  (get_session_context 2 0 Store.empty "A").1) with
                  user_name := some "Alice" })) "B").2 "A").2 "C").2).readKey "A" =
      some { SessionContext.init 0 with user_name := some "Alice" } :=
  have h := claim_C2 "A" "B" "C" (by decide) (by decide) (by decide) 0 1 2 3
    (fun c => { c with user_name := some "Alice" }) _ rfl _ rfl _ rfl _ rfl _ rfl
  ⟨h.2.2.1, h.2.2.2.1⟩

/-! ## Store lemmas for the identity-capture step -/

lemma find?_filter_not_self (l : List (String × Nat)) (sid : String) :
    (l.filter (fun q => !(q.1 == sid))).find? (fun q => q.1 == sid) = none := by
  induction l with
  | nil => rfl
  | cons a rest ih =>
    by_cases ha : (a.1 == sid) = true
    · simp only [List.filter_cons, ha, Bool.not_true]
      rw [if_neg (by simp)]
      exact ih
    · have ha2 : (a.1 == sid) = false := by
        cases hb : (a.1 == sid) with
        | false => rfl
        | true => exact absurd hb ha
      simp only [List.filter_cons, ha2, Bool.not_false]
      rw [if_pos (by simp)]
      rw [List.find?_cons_of_neg _ (by simp [ha2])]
      exact ih

lemma find_entry_move_to_end_self (order : List (String × Nat)) (sid : String)
    (p : String × Nat) (h : find_entry order sid = some p) :
    find_entry (move_to_end order sid) sid = some p := by
  unfold move_to_end
  rw [h]
  unfold find_entry at h ⊢
  rw [List.find?_append, find?_filter_not_self]
  have hp : (p.1 == sid) = true :=
    List.find?_some (p := fun q : String × Nat => q.1 == sid) h
  simp [List.find?_cons, hp]

lemma getD_set_self {α : Type} (l : List α) (i : Nat) (a d : α) (h : i < l.length) :
    (l.set i a).getD i d = a := by
  induction l generalizing i with
  | nil => simp at h
  | cons x rest ih =>
    cases i with
    | zero => rfl
    | succ n =>
      simp only [List.set_cons_succ, List.getD_cons_succ]
      exact ih n (by simpa using h)

/-- A chat turn whose key is already stored with a truthy user name
leaves that entry unchanged (first-writer-wins at the store level). -/
lemma capture_step_keeps_set_name (sid : String) (un : Option String) (now : Rat)
    (store : Store) (ctx : SessionContext) (h : store.readKey sid = some ctx)
    (ht : truthy ctx.user_name = true) :
    (capture_step (some sid) un now store).readKey sid = some ctx := by
  unfold Store.readKey at h
  cases hf : find_entry store.order sid with
  | none => rw [hf] at h; simp at h
  | some p =>
    rw [hf] at h
    simp only [Option.map_some'] at h
    have hread : store.read p.2 = ctx := Option.some.inj h
    unfold capture_step
    dsimp only
    by_cases hsid : (sid == "") = true
    · rw [if_pos hsid]
      unfold Store.readKey
      rw [hf]
      simp [hread]
    · rw [if_neg hsid]
      unfold get_session_context
      rw [hf]
      dsimp only
      have hread2 : ({ store with order := move_to_end store.order sid } : Store).read p.2 = ctx :=
        hread
      rw [hread2, ht]
      simp only [Bool.not_true, Bool.and_false, Bool.false_eq_true, if_false]
      unfold Store.readKey
      rw [find_entry_move_to_end_self store.order sid p hf]
      simp only [Option.map_some']
      exact congrArg some hread2

/-- When the stored user name is not yet truthy and the composed name
is, the capture step records the composed name (first success). -/
lemma capture_step_writes_name (sid : String) (un : Option String) (now : Rat)
    (store : Store) (p : String × Nat)
    (hsid : (sid == "") = false)
    (hf : find_entry store.order sid = some p)
    (hlt : p.2 < store.heap.length)
    (hun : truthy un = true)
    (hctx : truthy (store.read p.2).user_name = false) :
    (capture_step (some sid) un now store).readKey sid =
      some { store.read p.2 with user_name := un } := by
  unfold capture_step
  dsimp only
  rw [if_neg (by simp [hsid])]
  unfold get_session_context
  rw [hf]
  dsimp only
  have hread2 : ({ store with order := move_to_end store.order sid } : Store).read p.2 =
      store.read p.2 := rfl
  rw [hread2, hun, hctx]
  simp only [Bool.not_false, Bool.and_true, if_true]
  unfold Store.readKey Store.write
  dsimp only
  rw [find_entry_move_to_end_self store.order sid p hf]
  simp only [Option.map_some']
  unfold Store.read
  rw [getD_set_self _ _ _ _ hlt]

/-! ## Handler characterization lemmas -/

lemma chat_completions_store_eq (respond : String → Except String String) (env : Env)
    (req : Request) (body : ChatBody) (store : Store) :
    (chat_completions respond env req (Except.ok body) store).2 =
      capture_step (extract_session_id req body)
        (chat_user_name (extract_session_id req body) body.messages) env.now store := by
  unfold chat_completions
  cases hr : respond (chat_prompt (extract_session_id req body) body.messages) with
  | error e => simp [hr]
  | ok rt =>
    simp only [hr]
    cases hs : body.stream.getD true <;> simp [hs]

lemma chat_completions_result_eq (respond : String → Except String String) (env : Env)
    (req : Request) (body : ChatBody) (store : Store) :
    (chat_completions respond env req (Except.ok body) store).1 =
      (match respond (chat_prompt (extract_session_id req body) body.messages) with
       | Except.error e => ChatResult.errorResp e
       | Except.ok rt =>
         if body.stream.getD true then ChatResult.streamed (stream_events env rt)
         else ChatResult.completion (mkCompletion env rt)) := by
  unfold chat_completions
  cases hr : respond (chat_prompt (extract_session_id req body) body.messages) with
  | error e => simp [hr]
  | ok rt =>
    simp only [hr]
    cases hs : body.stream.getD true <;> simp [hs]

/-! ## Claim C6 (confirmed) -/

/-- Claim C6: first-writer-wins identity capture. If the store already
holds a context with a truthy user name for the session key a
chat-completions turn resolves to, then after the turn the key still
holds exactly that context: no inbound name (system-message or
session-key derived) overwrites it, on any turn. -/
theorem claim_C6 (respond : String → Except String String) (env : Env) (req : Request)
    (body : ChatBody) (store : Store) (key : String) (ctx : SessionContext)
    (hsid : extract_session_id req body = some key)
    (hkey : store.readKey key = some ctx)
    (ht : truthy ctx.user_name = true) :
    ((chat_completions respond env req (Except.ok body) store).2).readKey key = some ctx := by
  rw [chat_completions_store_eq, hsid]
  exact capture_step_keeps_set_name key _ env.now store ctx hkey ht

/-- Claim C6 witness: a stored session for key k with name Alice; a
turn for the same key whose system message carries name Bob leaves the
stored name Alice. -/
theorem claim_C6_witness :
    ((chat_completions (fun p => Except.ok p)
        { now := 9, created1 := 1, created2 := 2, uuid1 := "u1", uuid2 := "u2" }
        { query_params := fun k => if k == "custom_session_id" then some "k" else none,
          headers := fun _ => none }
        (Except.ok
          { messages := [ { role := "system", content := "name: Bob" },
                          { role := "user", content := "Hi" } ],
            stream := none, fields := [], session_settings := [], metadata := [] })
        { heap := [ { SessionContext.init 0 with user_name := some "Alice" } ],
          order := [ ("k", 0) ] }).2).readKey "k" =
      some { SessionContext.init 0 with user_name := some "Alice" } :=
  claim_C6 (fun p => Except.ok p)
    { now := 9, created1 := 1, created2 := 2, uuid1 := "u1", uuid2 := "u2" }
    { query_params := fun k => if k == "custom_session_id" then some "k" else none,
      headers := fun _ => none }
    { messages := [ { role := "system", content := "name: Bob" },
                    { role := "user", content := "Hi" } ],
      stream := none, fields := [], session_settings := [], metadata := [] }
    { heap := [ { SessionContext.init 0 with user_name := some "Alice" } ],
      order := [ ("k", 0) ] }
    "k" { SessionContext.init 0 with user_name := some "Alice" }
    (by decide) (by decide) (by decide)

/-! ## Claim C7 (confirmed) -/

/-- Claim C7: system-message precedence in the composed identity. When
the system-message extraction yields a name (respectively an id), the
composed name (id) used by the chat handler is that value, whatever the
session key carries; and the personalization annotation in the prompt
uses exactly that name. -/
theorem claim_C7 :
    (∀ (session_id : Option String) (messages : List ChatMessage),
      truthy (extract_user_from_messages messages).1 = true →
      chat_user_name session_id messages = (extract_user_from_messages messages).1)
  ∧ (∀ (session_id : Option String) (messages : List ChatMessage),
      truthy (extract_user_from_messages messages).2.1 = true →
      chat_user_id session_id messages = (extract_user_from_messages messages).2.1)
  ∧ (∀ (session_id : Option String) (messages : List ChatMessage) (n : String),
      (extract_user_from_messages messages).1 = some n → (n == "") = false →
      chat_prompt session_id messages =
        "[User\x27s name is " ++ n ++ "] " ++ last_user_message messages) := by
  refine ⟨?_, ?_, ?_⟩
  · intro session_id messages h
    simp [chat_user_name, h]
  · intro session_id messages h
    simp [chat_user_id, h]
  · intro session_id messages n h hn
    have h1 : chat_user_name session_id messages = some n := by
      simp [chat_user_name, h, truthy, hn]
    simp [chat_prompt, h1, hn]

/-- Claim C7 witness: session key Bob pipe 42 together with a system
message carrying name Alice and user id 7 composes to Alice and 7, and
the prompt annotation says Alice. -/
theorem claim_C7_witness :
    chat_user_name (some "Bob|42")
      [ { role := "system", content := "name: Alice\nuser_id: 7" },
        { role := "user", content := "Hi" } ] = some "Alice"
  ∧ chat_user_id (some "Bob|42")
      [ { role := "system", content := "name: Alice\nuser_id: 7" },
        { role := "user", content := "Hi" } ] = some "7"
  ∧ chat_prompt (some "Bob|42")
      [ { role := "system", content := "name: Alice\nuser_id: 7" },
        { role := "user", content := "Hi" } ] =
      "[User\x27s name is " ++ "Alice" ++ "] " ++
        last_user_message
          [ { role := "system", content := "name: Alice\nuser_id: 7" },
            { role := "user", content := "Hi" } ] := by
  refine ⟨?_, ?_, ?_⟩
  · exact (claim_C7.1 (some "Bob|42") _ (by decide)).trans (by decide)
  · exact (claim_C7.2.1 (some "Bob|42") _ (by decide)).trans (by decide)
  · exact claim_C7.2.2 (some "Bob|42") _ "Alice" (by decide) (by decide)

/-! ## Claim C9 (confirmed) -/

/-- Claim C9: endpoint-level exception containment. Both handlers are
total functions of their inputs; a failing body parse or a failing
hosted-model call is mapped to the error-response constructor (the
generic error object of the Python handler), never propagated. -/
theorem claim_C9 :
    (∀ (respond : String → Except String String) (env : Env) (req : Request)
       (e : String) (store : Store),
      chat_completions respond env req (Except.error e) store =
        (ChatResult.errorResp e, store))
  ∧ (∀ (respond : String → Except String String) (env : Env) (req : Request)
       (body : ChatBody) (store : Store) (e : String),
      respond (chat_prompt (extract_session_id req body) body.messages) = Except.error e →
      (chat_completions respond env req (Except.ok body) store).1 = ChatResult.errorResp e)
  ∧ (∀ (respond : String → Except String String) (e : String) (store : Store),
      copilotkit_endpoint respond (Except.error e) store = (CKResult.errorResp e, store))
  ∧ (∀ (respond : String → Except String String) (messages : List CKMessage)
       (store : Store) (e : String),
      respond (ck_last_user_message messages) = Except.error e →
      (copilotkit_endpoint respond (Except.ok messages) store).1 = CKResult.errorResp e) := by
  refine ⟨?_, ?_, ?_, ?_⟩
  · intro respond env req e store
    rfl
  · intro respond env req body store e h
    rw [chat_completions_result_eq, h]
  · intro respond e store
    rfl
  · intro respond messages store e h
    simp [copilotkit_endpoint, h]

/-- Claim C9 witness: a failing parse and a failing model call on each
endpoint produce the error response. -/
theorem claim_C9_witness :
    chat_completions (fun p => Except.ok p)
      { now := 0, created1 := 0, created2 := 0, uuid1 := "u", uuid2 := "u" }
      { query_params := fun _ => none, headers := fun _ => none }
      (Except.error "bad json") Store.empty =
      (ChatResult.errorResp "bad json", Store.empty)
  ∧ (chat_completions (fun _ => Except.error "model down")
      { now := 0, created1 := 0, created2 := 0, uuid1 := "u", uuid2 := "u" }
      { query_params := fun _ => none, headers := fun _ => none }
      (Except.ok { messages := [], stream := none, fields := [],
                   session_settings := [], metadata := [] }) Store.empty).1 =
      ChatResult.errorResp "model down"
  ∧ copilotkit_endpoint (fun p => Except.ok p) (Except.error "bad json") Store.empty =
      (CKResult.errorResp "bad json", Store.empty)
  ∧ (copilotkit_endpoint (fun _ => Except.error "model down")
      (Except.ok []) Store.empty).1 = CKResult.errorResp "model down" := by
  refine ⟨?_, ?_, ?_, ?_⟩
  · exact claim_C9.1 (fun p => Except.ok p) _ _ "bad json" Store.empty
  · exact claim_C9.2.1 (fun _ => Except.error "model down") _ _ _ Store.empty "model down" rfl
  · exact claim_C9.2.2.1 (fun p => Except.ok p) "bad json" Store.empty
  · exact claim_C9.2.2.2 (fun _ => Except.error "model down") [] Store.empty "model down" rfl

/-! ## Claim C10 (confirmed) -/

/-- Claim C10: frame property when no session key resolves. The handler
leaves the session store exactly as it was (no context is created or
mutated by the handler itself), and the response is a function of the
prompt alone, into which a system-message name enters only through the
bracketed annotation of this single turn. -/
theorem claim_C10 (respond : String → Except String String) (env : Env) (req : Request)
    (body : ChatBody) (store : Store)
    (hsid : extract_session_id req body = none) :
    (chat_completions respond env req (Except.ok body) store).2 = store
  ∧ (chat_completions respond env req (Except.ok body) store).1 =
      (match respond (chat_prompt none body.messages) with
       | Except.error e => ChatResult.errorResp e
       | Except.ok rt =>
         if body.stream.getD true then ChatResult.streamed (stream_events env rt)
         else ChatResult.completion (mkCompletion env rt)) := by
  constructor
  · rw [chat_completions_store_eq, hsid]
    rfl
  · rw [chat_completions_result_eq, hsid]

/-- Claim C10 witness: a request with no session carrier anywhere, whose
system message still names Alice, leaves the empty store empty and
produces the annotated-prompt response. -/
theorem claim_C10_witness :
    (chat_completions (fun p => Except.ok p)
        { now := 0, created1 := 0, created2 := 0, uuid1 := "u1", uuid2 := "u2" }
        { query_params := fun _ => none, headers := fun _ => none }
        (Except.ok
          { messages := [ { role := "system", content := "name: Alice" },
                          { role := "user", content := "Hi" } ],
            stream := some false, fields := [], session_settings := [], metadata := [] })
        Store.empty).2 = Store.empty :=
  (claim_C10 (fun p => Except.ok p)
    { now := 0, created1 := 0, created2 := 0, uuid1 := "u1", uuid2 := "u2" }
    { query_params := fun _ => none, headers := fun _ => none }
    { messages := [ { role := "system", content := "name: Alice" },
                    { role := "user", content := "Hi" } ],
      stream := some false, fields := [], session_settings := [], metadata := [] }
    Store.empty (by decide)).1

/-! ## Claim C8 (confirmed) -/

/-- Claim C8: streaming envelope shape. When the model call succeeds
with answer text rt: stream defaults to true when absent; with stream
truthy the response is exactly two data chunk events (the first carrying
the whole answer in one delta, the second an empty delta with finish
reason stop) followed by the DONE sentinel, and the concatenation of the
delta contents equals rt; with stream falsy the response is the single
completion object whose message content is the same rt. -/
theorem claim_C8 (respond : String → Except String String) (env : Env) (req : Request)
    (body : ChatBody) (store : Store) (rt : String)
    (h : respond (chat_prompt (extract_session_id req body) body.messages) = Except.ok rt) :
    (body.stream = none → body.stream.getD true = true)
  ∧ (body.stream.getD true = true →
      (chat_completions respond env req (Except.ok body) store).1 =
        ChatResult.streamed (stream_events env rt)
      ∧ ∃ c1 c2, stream_events env rt = [ SSEEvent.data c1, SSEEvent.data c2, SSEEvent.done ]
          ∧ c1.choices.map (fun ch => (ch.delta.content, ch.finish_reason)) = [ (some rt, none) ]
          ∧ c2.choices.map (fun ch => (ch.delta.content, ch.finish_reason)) = [ (none, some "stop") ]
          ∧ ((stream_events env rt).map eventContent).foldl (fun a b => a ++ b) "" = rt)
  ∧ (body.stream.getD true = false →
      (chat_completions respond env req (Except.ok body) store).1 =
        ChatResult.completion (mkCompletion env rt)
      ∧ (mkCompletion env rt).choices.map (fun ch => ch.message.content) = [ rt ]) := by
  refine ⟨?_, ?_, ?_⟩
  · intro hs
    rw [hs]
    rfl
  · intro hs
    constructor
    · rw [chat_completions_result_eq, h, hs]
      rfl
    · refine ⟨_, _, rfl, rfl, rfl, ?_⟩
      simp [stream_events, eventContent, String.join, Option.getD_none,
        str_append_empty, str_empty_append]
  · intro hs
    constructor
    · rw [chat_completions_result_eq, h, hs]
      rfl
    · rfl

/-- Claim C8 witness: the streamed and non-streamed responses for a
concrete request agree on the answer text. -/
theorem claim_C8_witness :
    ((({ messages := [ { role := "user", content := "Hi" } ], stream := none, fields := [],
         session_settings := [], metadata := [] } : ChatBody).stream = none) →
      ({ messages := [ { role := "user", content := "Hi" } ], stream := none, fields := [],
         session_settings := [], metadata := [] } : ChatBody).stream.getD true = true)
  ∧ (chat_completions (fun p => Except.ok p)
      { now := 0, created1 := 0, created2 := 0, uuid1 := "u1", uuid2 := "u2" }
      { query_params := fun _ => none, headers := fun _ => none }
      (Except.ok { messages := [ { role := "user", content := "Hi" } ], stream := none,
                   fields := [], session_settings := [], metadata := [] }) Store.empty).1 =
      ChatResult.streamed (stream_events
        { now := 0, created1 := 0, created2 := 0, uuid1 := "u1", uuid2 := "u2" } "Hi") := by
  have h8 := claim_C8 (fun p => Except.ok p)
    { now := 0, created1 := 0, created2 := 0, uuid1 := "u1", uuid2 := "u2" }
    { query_params := fun _ => none, headers := fun _ => none }
    { messages := [ { role := "user", content := "Hi" } ], stream := none,
      fields := [], session_settings := [], metadata := [] }
    Store.empty "Hi" rfl
  exact ⟨h8.1, (h8.2.1 rfl).1⟩

/-! ## Claim C5 (corrected) -/

/-- Claim C5 counterexample. The claim states that both endpoints
resolve identity and prepend the bracketed name annotation; on the
copilotkit endpoint a conversation whose system message names Alice is
delegated with the raw user message, not the annotated one (observed
through an echoing model oracle). -/
theorem claim_C5_counterexample :
    (copilotkit_endpoint (fun p => Except.ok p)
        (Except.ok [ { role := "system", content := CKContent.str "name: Alice" },
                     { role := "user", content := CKContent.str "Hi" } ])
        Store.empty).1 =
      CKResult.ok [ { role := "assistant", content := "Hi" } ]
  ∧ CKResult.ok [ ({ role := "assistant", content := "Hi" } : CKReply) ] ≠
      CKResult.ok [ { role := "assistant", content := "[User\x27s name is Alice] Hi" } ] := by
  exact ⟨rfl, by decide⟩

/-- Claim C5 amended: only the chat-completions endpoint performs the
identity pipeline. Both endpoints extract the latest user-authored
message (scanning from the end, canned greeting when none exists); the
chat-completions endpoint additionally resolves identity, captures the
name into the session on first success only when a session key is
present, prepends the bracketed annotation when a name is known, and
delegates the annotated prompt; the copilotkit endpoint never touches
the session store and delegates the raw latest user message. -/
theorem claim_C5_amended :
    (∀ messages : List ChatMessage,
      (messages.reverse.find? (fun m => m.role == "user")) = none →
      last_user_message messages = "Hello!")
  ∧ (∀ messages : List CKMessage,
      (messages.reverse.find? (fun m => m.role == "user")) = none →
      ck_last_user_message messages = "Hello!")
  ∧ (∀ (sid : Option String) (messages : List ChatMessage) (n : String),
      chat_user_name sid messages = some n → (n == "") = false →
      chat_prompt sid messages = "[User\x27s name is " ++ n ++ "] " ++ last_user_message messages)
  ∧ (∀ (sid : Option String) (messages : List ChatMessage),
      truthy (chat_user_name sid messages) = false →
      chat_prompt sid messages = last_user_message messages)
  ∧ (∀ (respond : String → Except String String) (env : Env) (req : Request)
       (body : ChatBody) (store : Store),
      (chat_completions respond env req (Except.ok body) store).2 =
        capture_step (extract_session_id req body)
          (chat_user_name (extract_session_id req body) body.messages) env.now store
      ∧ (chat_completions respond env req (Except.ok body) store).1 =
          (match respond (chat_prompt (extract_session_id req body) body.messages) with
           | Except.error e => ChatResult.errorResp e
           | Except.ok rt =>
             if body.stream.getD true then ChatResult.streamed (stream_events env rt)
             else ChatResult.completion (mkCompletion env rt)))
  ∧ (∀ (sid : String) (un : Option String) (now : Rat) (store : Store) (p : String × Nat),
      (sid == "") = false → find_entry store.order sid = some p →
      p.2 < store.heap.length → truthy un = true →
      truthy (store.read p.2).user_name = false →
      (capture_step (some sid) un now store).readKey sid =
        some { store.read p.2 with user_name := un })
  ∧ (∀ (sid : String) (un : Option String) (now : Rat) (store : Store) (ctx : SessionContext),
      store.readKey sid = some ctx → truthy ctx.user_name = true →
      (capture_step (some sid) un now store).readKey sid = some ctx)
  ∧ (∀ (respond : String → Except String String) (parsed : Except String (List CKMessage))
       (store : Store),
      (copilotkit_endpoint respond parsed store).2 = store)
  ∧ (∀ (respond : String → Except String String) (messages : List CKMessage)
       (store : Store) (rt : String),
      respond (ck_last_user_message messages) = Except.ok rt →
      (copilotkit_endpoint respond (Except.ok messages) store).1 =
        CKResult.ok [ { role := "assistant", content := rt } ]) := by
  refine ⟨?_, ?_, ?_, ?_, ?_, ?_, ?_, ?_, ?_⟩
  · intro messages h
    simp [last_user_message, h]
  · intro messages h
    simp [ck_last_user_message, h]
  · intro sid messages n h hn
    simp [chat_prompt, h, hn]
  · intro sid messages h
    cases hcun : chat_user_name sid messages with
    | none => simp [chat_prompt, hcun]
    | some n =>
      rw [hcun] at h
      have hn : (n == "") = true := by
        simpa [truthy] using h
      simp [chat_prompt, hcun, hn]
  · intro respond env req body store
    exact ⟨chat_completions_store_eq respond env req body store,
      chat_completions_result_eq respond env req body store⟩
  · intro sid un now store p h1 h2 h3 h4 h5
    exact capture_step_writes_name sid un now store p h1 h2 h3 h4 h5
  · intro sid un now store ctx h1 h2
    exact capture_step_keeps_set_name sid un now store ctx h1 h2
  · intro respond parsed store
    cases parsed with
    | error e => rfl
    | ok messages =>
      unfold copilotkit_endpoint
      cases hr : respond (ck_last_user_message messages) <;> simp [hr]
  · intro respond messages store rt h
    simp [copilotkit_endpoint, h]

/-- Claim C5 witness: the capture and default-greeting facts evaluated
at concrete inputs: a first-success capture stores the name, and a
message list without user entries yields the canned greeting on both
endpoints. -/
theorem claim_C5_witness :
    (capture_step (some "k") (some "Alice") 5
        { heap := [ SessionContext.init 0 ], order := [ ("k", 0) ] }).readKey "k" =
      some { ({ heap := [ SessionContext.init 0 ], order := [ ("k", 0) ] } : Store).read 0 with
               user_name := some "Alice" }
  ∧ last_user_message [ { role := "system", content := "hello" } ] = "Hello!"
  ∧ ck_last_user_message [ { role := "assistant", content := CKContent.str "x" } ] = "Hello!" := by
  refine ⟨?_, ?_, ?_⟩
  · exact claim_C5_amended.2.2.2.2.2.1 "k" (some "Alice") 5
      { heap := [ SessionContext.init 0 ], order := [ ("k", 0) ] } ("k", 0)
      (by decide) (by decide) (by decide) (by decide) (by decide)
  · exact claim_C5_amended.1 [ { role := "system", content := "hello" } ] (by decide)
  · exact claim_C5_amended.2.1 [ { role := "assistant", content := CKContent.str "x" } ] (by decide)

end VicAgent
